import Mathlib

/-!
Shallow embedding of the frame-stepped simulation core of the arcade
shooter in this repository (src/main.rs, src/player.rs, src/components.rs,
src/enemy/mod.rs, src/enemy/formation.rs).

Rational numbers stand in for the f32/f64 values of the discrete systems
(collision tests, respawn timing, laser spawning); the elliptic trajectory
integrator is modelled over the real numbers because the source uses
sqrt, sin, cos and pi.  Randomness (thread_rng) is modelled by passing the
drawn values explicitly; the entity store is modelled by passing the
queried component data as lists and returning the issued commands.
-/

/- Constants from src/main.rs. -/

def EXPLOSION_LEN : Nat := 16

def SPRITE_SCALE : ℚ := 0.5

def BASE_SPEED : ℚ := 500

def PLAYER_RESPAWN_DELAY : ℚ := 2

def ENEMY_MAX : Nat := 2

def FORMATION_MEMBERS_MAX : Nat := 2

def PLAYER_SIZE : ℚ × ℚ := (144, 75)

def PLAYER_LASER_SIZE : ℚ × ℚ := (9, 54)

def ENEMY_SIZE : ℚ × ℚ := (144, 75)

def ENEMY_LASER_SIZE : ℚ × ℚ := (17, 55)

/- Window size resource (struct WinSize in src/main.rs). -/

structure WinSize where
  w : ℚ
  h : ℚ

/- Collision geometry: Aabb2d::new(center, half_size) boxes built from
translation.truncate() and (sprite_size * scale) / 2, and the bevy
Aabb2d::intersects test (closed interval overlap on both axes). -/

structure SpriteBox where
  entity : Nat
  pos : ℚ × ℚ
  scale : ℚ × ℚ
  size : ℚ × ℚ

def spriteHalf (s : SpriteBox) : ℚ × ℚ :=
  (s.size.1 * s.scale.1 / 2, s.size.2 * s.scale.2 / 2)

def aabbIntersects (c1 h1 c2 h2 : ℚ × ℚ) : Prop :=
  c1.1 - h1.1 ≤ c2.1 + h2.1 ∧ c2.1 - h2.1 ≤ c1.1 + h1.1 ∧
  c1.2 - h1.2 ≤ c2.2 + h2.2 ∧ c2.2 - h2.2 ≤ c1.2 + h1.2

instance (c1 h1 c2 h2 : ℚ × ℚ) : Decidable (aabbIntersects c1 h1 c2 h2) :=
  inferInstanceAs (Decidable (_ ∧ _ ∧ _ ∧ _))

def spritesCollide (a b : SpriteBox) : Prop :=
  aabbIntersects a.pos (spriteHalf a) b.pos (spriteHalf b)

instance (a b : SpriteBox) : Decidable (spritesCollide a b) :=
  inferInstanceAs (Decidable (aabbIntersects _ _ _ _))

/- PlayerState resource from src/main.rs: alive mirrors the source field
named on (a Lean keyword), last_shot is the time of the last death, -1
when there is no death on record. -/

structure PlayerState where
  alive : Bool
  last_shot : ℚ
deriving DecidableEq

def PlayerState.shot (_ : PlayerState) (t : ℚ) : PlayerState :=
  { alive := false, last_shot := t }

def PlayerState.spawned (_ : PlayerState) : PlayerState :=
  { alive := true, last_shot := -1 }

/- The component bundle attached to the player entity spawned by
player_spawn_system in src/player.rs. -/

structure SpawnedPlayer where
  pos : ℚ × ℚ × ℚ
  velocity : ℚ × ℚ
  auto_despawn : Bool
  invincible_secs : ℚ
deriving DecidableEq

/- player_spawn_system (src/player.rs): runs on a 0.5 s cadence; spawns a
player at bottom-center with zero velocity and a 2 s Invincible timer when
the player is not alive and either no death is on record or the current
time is strictly past last_shot + PLAYER_RESPAWN_DELAY. -/

def player_spawn_system (ps : PlayerState) (now : ℚ) (win : WinSize) :
    Option SpawnedPlayer × PlayerState :=
  if ¬ ps.alive = true ∧ (ps.last_shot = -1 ∨ now > ps.last_shot + PLAYER_RESPAWN_DELAY) then
    (some { pos := (0, -win.h / 2 + PLAYER_SIZE.2 / 2 * SPRITE_SCALE + 5, 10)
            velocity := (0, 0)
            auto_despawn := false
            invincible_secs := 2 },
     ps.spawned)
  else
    (none, ps)

/- The component bundle of a laser spawned by player_fire_system. -/

structure LaserSpawn where
  pos : ℚ × ℚ × ℚ
  size : ℚ × ℚ
  from_player : Bool
  velocity : ℚ × ℚ
  auto_despawn : Bool
deriving DecidableEq

/- player_fire_system (src/player.rs): when the single player query
succeeds and Space was just pressed, spawns one laser at each horizontal
offset, first +x_offset then -x_offset, 15 above the player. -/

def player_fire_system (player : Option (ℚ × ℚ)) (justPressedSpace : Bool) :
    List LaserSpawn :=
  match player with
  | none => []
  | some (x, y) =>
    if justPressedSpace then
      [ { pos := (x + (PLAYER_SIZE.1 / 2 * SPRITE_SCALE - 5), y + 15, 0)
          size := PLAYER_LASER_SIZE
          from_player := true
          velocity := (0, 1)
          auto_despawn := true },
        { pos := (x - (PLAYER_SIZE.1 / 2 * SPRITE_SCALE - 5), y + 15, 0)
          size := PLAYER_LASER_SIZE
          from_player := true
          velocity := (0, 1)
          auto_despawn := true } ]
    else []

/- explosion_animation_system (src/main.rs), restricted to one explosion
entity and to the frames on which its repeating timer finished: the state
is some index while the entity lives, none once it was despawned.  A
finished tick increments the texture atlas index and despawns the entity
as soon as the index reaches EXPLOSION_LEN. -/

def explosionTick : Option Nat → Option Nat
  | none => none
  | some idx => if idx + 1 ≥ EXPLOSION_LEN then none else some (idx + 1)

/- State of an explosion entity spawned at atlas index 0 after n finished
timer ticks. -/

def explosionAfter : Nat → Option Nat
  | 0 => some 0
  | n + 1 => explosionTick (explosionAfter n)

/- Player snapshot used by enemy_laser_hit_player_system; the invincible
field records whether the Invincible marker is currently attached (the
source query does not filter on it). -/

structure PlayerSprite where
  entity : Nat
  pos : ℚ × ℚ
  scale : ℚ × ℚ
  size : ℚ × ℚ
  invincible : Bool

def PlayerSprite.toBox (p : PlayerSprite) : SpriteBox :=
  { entity := p.entity, pos := p.pos, scale := p.scale, size := p.size }

/- Outcome of one run of enemy_laser_hit_player_system. -/

structure PlayerHitOutcome where
  playerDespawned : Bool
  state : PlayerState
  laserDespawns : List Nat
  explosions : List (ℚ × ℚ)
deriving DecidableEq

/- Inner scan of enemy_laser_hit_player_system (src/main.rs): test each
enemy laser against the player box; on the first overlap despawn the
player, record the death time, despawn the laser, spawn an explosion at
the player position and break. -/

def scanEnemyLasers (p : PlayerSprite) (ps : PlayerState) (now : ℚ) :
    List SpriteBox → PlayerHitOutcome
  | [] => { playerDespawned := false, state := ps, laserDespawns := [], explosions := [] }
  | l :: rest =>
    if spritesCollide l p.toBox then
      { playerDespawned := true
        state := ps.shot now
        laserDespawns := [l.entity]
        explosions := [p.pos] }
    else scanEnemyLasers p ps now rest

/- enemy_laser_hit_player_system (src/main.rs): a single-player query; a
missing player is a silent no-op.  Note that the query is only
With Player - the Invincible marker is not consulted. -/

def enemy_laser_hit_player_system (player : Option PlayerSprite)
    (lasers : List SpriteBox) (ps : PlayerState) (now : ℚ) : PlayerHitOutcome :=
  match player with
  | none => { playerDespawned := false, state := ps, laserDespawns := [], explosions := [] }
  | some p => scanEnemyLasers p ps now lasers

/- Accumulated effect of player_laser_hit_enemy_system: the despawned
set (HashSet despawned_entities), the issued despawn commands in order,
the number of enemy-count decrements and the queued explosions. -/

structure HitPass where
  despawned : List Nat
  enemyDespawns : List Nat
  laserDespawns : List Nat
  decrements : Nat
  explosions : List (ℚ × ℚ)

/- Body of the inner loop of player_laser_hit_enemy_system: skip when
either entity is already in the despawned set; on an AABB overlap despawn
the enemy, decrement the counter, despawn the laser and queue an
explosion at the enemy position. -/

def processEnemy (laser : SpriteBox) (st : HitPass) (enemy : SpriteBox) : HitPass :=
  if enemy.entity ∈ st.despawned ∨ laser.entity ∈ st.despawned then st
  else if spritesCollide laser enemy then
    { despawned := laser.entity :: enemy.entity :: st.despawned
      enemyDespawns := enemy.entity :: st.enemyDespawns
      laserDespawns := laser.entity :: st.laserDespawns
      decrements := st.decrements + 1
      explosions := enemy.pos :: st.explosions }
  else st

/- Body of the outer loop: skip a laser already despawned, else scan all
enemies. -/

def processLaser (enemies : List SpriteBox) (st : HitPass) (laser : SpriteBox) : HitPass :=
  if laser.entity ∈ st.despawned then st
  else enemies.foldl (processEnemy laser) st

/- player_laser_hit_enemy_system (src/main.rs): nested loops over player
lasers and enemies starting from an empty despawned set. -/

def player_laser_hit_enemy_system (lasers enemies : List SpriteBox) : HitPass :=
  lasers.foldl (processLaser enemies)
    { despawned := [], enemyDespawns := [], laserDespawns := [], decrements := 0,
      explosions := [] }

/- Invariant maintained by the collision pass: the issued enemy and laser
despawn commands are duplicate-free and mutually disjoint, every command
target is recorded in the despawned set, and the number of counter
decrements equals the number of enemy despawn commands. -/

def hitInv (st : HitPass) : Prop :=
  st.enemyDespawns.Nodup ∧ st.laserDespawns.Nodup ∧
  st.enemyDespawns.Disjoint st.laserDespawns ∧
  (∀ i, i ∈ st.enemyDespawns → i ∈ st.despawned) ∧
  (∀ i, i ∈ st.laserDespawns → i ∈ st.despawned) ∧
  st.decrements = st.enemyDespawns.length

/- Enemy population accounting (C9): EnemyCount is initialised to 0 in
setup_system; enemy_spawn_system increments it only under the
count < ENEMY_MAX guard and adds one live enemy; a confirmed kill in
player_laser_hit_enemy_system removes one live enemy and decrements. -/

structure EnemyWorld where
  count : Nat
  enemies : Finset Nat

inductive EnemyStep : EnemyWorld → EnemyWorld → Prop
  | spawn (w : EnemyWorld) (e : Nat) (hcap : w.count < ENEMY_MAX)
      (hfresh : e ∉ w.enemies) :
      EnemyStep w { count := w.count + 1, enemies := insert e w.enemies }
  | kill (w : EnemyWorld) (e : Nat) (hlive : e ∈ w.enemies) :
      EnemyStep w { count := w.count - 1, enemies := w.enemies.erase e }

inductive EnemyReachable : EnemyWorld → Prop
  | init : EnemyReachable { count := 0, enemies := ∅ }
  | step {w w' : EnemyWorld} : EnemyReachable w → EnemyStep w w' → EnemyReachable w'

/- Real-valued constants for the trajectory integrator. -/

noncomputable def BASE_SPEED_R : ℝ := 500

/- Formation component (src/enemy/formation.rs). -/

structure Formation where
  start : ℝ × ℝ
  radius : ℝ × ℝ
  pivot : ℝ × ℝ
  speed : ℝ
  angle : ℝ
  change_timer : ℝ
  pivot_delta : ℝ × ℝ
  radius_delta : ℝ × ℝ
  speed_delta : ℝ

/- FormationMaker resource (src/enemy/formation.rs). -/

structure FormationMaker where
  current_template : Option Formation
  current_members : Nat

/- Random draws consumed by one execution of the fresh-template branch
of FormationMaker::make. -/

structure MakerRolls where
  side : Bool
  starty : ℝ
  pivot : ℝ × ℝ
  radiusx : ℝ
  pivot_delta : ℝ × ℝ
  radius_delta : ℝ × ℝ
  speed_delta : ℝ

/- Two-argument arctangent, as in Rust f32::atan2(y, x): the argument of
the complex number x + y i. -/

noncomputable def atan2 (y x : ℝ) : ℝ :=
  Complex.arg ((x : ℂ) + (y : ℂ) * Complex.I)

/- Fresh-template branch of FormationMaker::make: a start point on one of
the two vertical screen edges, a pivot in the inner box, radius x random
and radius y fixed to 100, base speed, the bearing from start to pivot as
the initial angle, and random drift rates. -/

noncomputable def freshFormation (win : WinSize) (roll : MakerRolls) : Formation :=
  { start := (if roll.side then (win.w : ℝ) / 2 + 100 else -((win.w : ℝ) / 2 + 100),
              roll.starty)
    radius := (roll.radiusx, 100)
    pivot := roll.pivot
    speed := BASE_SPEED_R
    angle := atan2 (roll.starty - roll.pivot.2)
      ((if roll.side then (win.w : ℝ) / 2 + 100 else -((win.w : ℝ) / 2 + 100)) - roll.pivot.1)
    change_timer := 0
    pivot_delta := roll.pivot_delta
    radius_delta := roll.radius_delta
    speed_delta := roll.speed_delta }

/- FormationMaker::make (src/enemy/formation.rs): clone the live template
and bump the member count while the count is below
FORMATION_MEMBERS_MAX; otherwise draw a fresh formation, store it as the
new template and reset the count to 1. -/

noncomputable def FormationMaker.make (m : FormationMaker) (win : WinSize)
    (roll : MakerRolls) : Formation × FormationMaker :=
  match m.current_template with
  | some tmpl =>
    if m.current_members ≥ FORMATION_MEMBERS_MAX then
      (freshFormation win roll,
       { current_template := some (freshFormation win roll), current_members := 1 })
    else
      (tmpl, { m with current_members := m.current_members + 1 })
  | none =>
    (freshFormation win roll,
     { current_template := some (freshFormation win roll), current_members := 1 })

/- Random draws consumed by one parameter re-roll inside
enemy_movement_system. -/

structure DriftRolls where
  pivot_delta : ℝ × ℝ
  radius_delta : ℝ × ℝ
  speed_delta : ℝ

/- Rust f32::clamp for lo less-or-equal hi. -/

noncomputable def rclamp (x lo hi : ℝ) : ℝ := max lo (min x hi)

/- First half of the parameter-drift sub-step of enemy_movement_system
(src/enemy/mod.rs): accumulate change_timer and re-roll the three delta
rates every 0.5 s of simulated time. -/

noncomputable def rollDeltas (f : Formation) (roll : DriftRolls) (delta : ℝ) : Formation :=
  if f.change_timer + delta > 0.5 then
    { f with pivot_delta := roll.pivot_delta
             radius_delta := roll.radius_delta
             speed_delta := roll.speed_delta
             change_timer := 0 }
  else
    { f with change_timer := f.change_timer + delta }

/- Parameter-drift sub-step of enemy_movement_system: apply the delta
rates scaled by the frame delta, then clamp pivot to the playfield box,
radius x to 50..200, radius y to 50..150 and speed to half..1.5 times
BASE_SPEED. -/

noncomputable def driftFormation (win : WinSize) (f : Formation) (roll : DriftRolls)
    (delta : ℝ) : Formation :=
  let f1 := rollDeltas f roll delta
  let w_span := (win.w : ℝ) / 4
  let h_span := (win.h : ℝ) / 3 - 50
  { f1 with
    pivot := (rclamp (f1.pivot.1 + f1.pivot_delta.1 * delta) (-w_span) w_span,
              rclamp (f1.pivot.2 + f1.pivot_delta.2 * delta) 0 h_span)
    radius := (rclamp (f1.radius.1 + f1.radius_delta.1 * delta) 50 200,
               rclamp (f1.radius.2 + f1.radius_delta.2 * delta) 50 150)
    speed := rclamp (f1.speed + f1.speed_delta * delta) (BASE_SPEED_R * 0.5)
      (BASE_SPEED_R * 1.5) }

/- Candidate next angle of the position-tracking sub-step: the locked
angle advanced at angular rate dir * speed * delta over
min(radius.x, radius.y) * pi / 2, where dir is fixed by the sign of the
spawn-side x coordinate. -/

noncomputable def candidateAngle (f : Formation) (delta : ℝ) : ℝ :=
  f.angle + (if f.start.1 < 0 then (1 : ℝ) else -1) * f.speed * delta /
    (min f.radius.1 f.radius.2 * Real.pi / 2)

/- Target point on the (possibly moved) ellipse at the candidate angle. -/

noncomputable def targetPoint (f : Formation) (delta : ℝ) : ℝ × ℝ :=
  (f.radius.1 * Real.cos (candidateAngle f delta) + f.pivot.1,
   f.radius.2 * Real.sin (candidateAngle f delta) + f.pivot.2)

/- Distance from the current position to the target point, as computed by
sqrt(dx*dx + dy*dy) in the source. -/

noncomputable def targetDistance (f : Formation) (pos : ℝ × ℝ) (delta : ℝ) : ℝ :=
  Real.sqrt ((pos.1 - (targetPoint f delta).1) * (pos.1 - (targetPoint f delta).1) +
    (pos.2 - (targetPoint f delta).2) * (pos.2 - (targetPoint f delta).2))

/- The distance-ratio with its division-by-zero guard: zero when the
distance is exactly zero, else max_distance / distance with
max_distance = delta * speed. -/

noncomputable def stepRatioOf (f : Formation) (pos : ℝ × ℝ) (delta : ℝ) : ℝ :=
  if targetDistance f pos delta = 0 then 0
  else delta * f.speed / targetDistance f pos delta

/- One axis of the capped step: o - (o - t) * r, then clamped by the sign
of the delta so the entity never passes the target coordinate t. -/

noncomputable def axisMove (o t r : ℝ) : ℝ :=
  if o - t > 0 then max (o - (o - t) * r) t else min (o - (o - t) * r) t

/- Position-tracking sub-step of enemy_movement_system: move each axis by
the guarded ratio, clamped at the target, and advance the locked angle to
the candidate only when the distance to the target is below
max_distance * speed / 20. -/

noncomputable def trackStep (f : Formation) (pos : ℝ × ℝ) (delta : ℝ) :
    (ℝ × ℝ) × Formation :=
  ((axisMove pos.1 (targetPoint f delta).1 (stepRatioOf f pos delta),
    axisMove pos.2 (targetPoint f delta).2 (stepRatioOf f pos delta)),
   if targetDistance f pos delta < delta * f.speed * f.speed / 20 then
     { f with angle := candidateAngle f delta }
   else f)

/- Per-enemy state touched by enemy_movement_system: the transform
translation and the Formation component. -/

structure EnemyState where
  pos : ℝ × ℝ
  formation : Formation

/- One tick of enemy_movement_system on one enemy: the parameter-drift
sub-step followed by the position-tracking sub-step. -/

noncomputable def enemy_movement_system (win : WinSize) (s : EnemyState)
    (roll : DriftRolls) (delta : ℝ) : EnemyState :=
  { pos := (trackStep (driftFormation win s.formation roll delta) s.pos delta).1
    formation := (trackStep (driftFormation win s.formation roll delta) s.pos delta).2 }

/- Concrete inputs used by the closed witnesses below. -/

noncomputable def sampleFormation : Formation :=
  { start := (-399, 0)
    radius := (100, 100)
    pivot := (0, 0)
    speed := 500
    angle := 0
    change_timer := 0
    pivot_delta := (0, 0)
    radius_delta := (0, 0)
    speed_delta := 0 }

noncomputable def sampleMakerRolls : MakerRolls :=
  { side := true, starty := 7, pivot := (3, 4), radiusx := 90,
    pivot_delta := (1, 1), radius_delta := (1, 1), speed_delta := 1 }

noncomputable def sampleMakerFresh : FormationMaker :=
  { current_template := some sampleFormation, current_members := 1 }

noncomputable def sampleMakerFull : FormationMaker :=
  { current_template := some sampleFormation, current_members := 2 }

def sampleWin : WinSize := { w := 598, h := 676 }

def sampleLaserBox : SpriteBox :=
  { entity := 1, pos := (0, 0), scale := (0.5, 0.5), size := (9, 54) }

def sampleEnemyBoxA : SpriteBox :=
  { entity := 2, pos := (0, 0), scale := (0.5, 0.5), size := (144, 75) }

def sampleEnemyBoxB : SpriteBox :=
  { entity := 3, pos := (10, 0), scale := (0.5, 0.5), size := (144, 75) }

def sampleInvinciblePlayer : PlayerSprite :=
  { entity := 1, pos := (0, 0), scale := (0.5, 0.5), size := (144, 75), invincible := true }

def sampleEnemyLaser : SpriteBox :=
  { entity := 2, pos := (0, 0), scale := (0.5, 0.5), size := (17, 55) }

/-! Theorems. -/

/-- C10: while exactly one player entity is alive, each just-pressed fire
edge spawns exactly two player lasers, at horizontal offsets plus and
minus (PLAYER_SIZE.x / 2 * SPRITE_SCALE - 5) from the player and 15 units
above it, each marked FromPlayer with velocity (0, 1) and auto_despawn
true; no laser is spawned when no player is alive or when the fire key is
merely held rather than just pressed. -/
theorem c10_player_fire_two_lasers :
    (∀ x y : ℚ, player_fire_system (some (x, y)) true =
      [ { pos := (x + (PLAYER_SIZE.1 / 2 * SPRITE_SCALE - 5), y + 15, 0),
          size := PLAYER_LASER_SIZE, from_player := true, velocity := (0, 1),
          auto_despawn := true },
        { pos := (x - (PLAYER_SIZE.1 / 2 * SPRITE_SCALE - 5), y + 15, 0),
          size := PLAYER_LASER_SIZE, from_player := true, velocity := (0, 1),
          auto_despawn := true } ]) ∧
    (∀ x y : ℚ, player_fire_system (some (x, y)) false = []) ∧
    (∀ b : Bool, player_fire_system none b = []) :=
  ⟨fun _ _ => rfl, fun _ _ => rfl, fun _ => rfl⟩

/- Closed form of the explosion state after n finished timer ticks. -/

theorem explosionAfter_eq (n : Nat) :
    explosionAfter n = if n < EXPLOSION_LEN then some n else none := by
  induction n with
  | zero => simp [explosionAfter, EXPLOSION_LEN]
  | succ n ih =>
    rw [explosionAfter, ih]
    by_cases h1 : n < EXPLOSION_LEN
    · rw [if_pos h1]
      by_cases h2 : n + 1 < EXPLOSION_LEN
      · rw [if_pos h2, explosionTick, if_neg (by omega)]
      · rw [if_neg h2, explosionTick, if_pos (by omega)]
    · rw [if_neg h1, if_neg (by omega)]
      rfl

/-- C7: an explosion entity whose repeating animation timer has finished
EXPLOSION_LEN times is destroyed; after only EXPLOSION_LEN - 1 finished
ticks it still exists with its last valid frame index, and the animation
never loops back to an earlier frame. -/
theorem c7_explosion_lifecycle :
    explosionAfter EXPLOSION_LEN = none ∧
    explosionAfter (EXPLOSION_LEN - 1) = some (EXPLOSION_LEN - 1) ∧
    (∀ m n i j : Nat, m ≤ n → explosionAfter m = some i →
      explosionAfter n = some j → i ≤ j) := by
  refine ⟨by decide, by decide, ?_⟩
  intro m n i j hmn hm hn
  rw [explosionAfter_eq] at hm hn
  by_cases h1 : m < EXPLOSION_LEN
  · rw [if_pos h1] at hm
    by_cases h2 : n < EXPLOSION_LEN
    · rw [if_pos h2] at hn
      injection hm with hm
      injection hn with hn
      omega
    · rw [if_neg h2] at hn
      cases hn
  · rw [if_neg h1] at hm
    cases hm

/-- C7 witness: the no-looping conclusion instantiated at finished-tick
counts 3 and 5. -/
theorem c7_explosion_lifecycle_witness :
    explosionAfter 3 = some 3 ∧ explosionAfter 5 = some 5 ∧ 3 ≤ 5 :=
  ⟨by decide, by decide,
    c7_explosion_lifecycle.2.2 3 5 3 5 (by decide) (by decide) (by decide)⟩

/- Helper: the spawn check is a no-op when a death is on record and now is
not strictly past the respawn deadline. -/

theorem player_spawn_none (ps : PlayerState) (now : ℚ) (win : WinSize)
    (h1 : ps.last_shot ≠ -1) (h2 : ¬ now > ps.last_shot + PLAYER_RESPAWN_DELAY) :
    player_spawn_system ps now win = (none, ps) := by
  unfold player_spawn_system
  rw [if_neg]
  rintro ⟨-, hor⟩
  rcases hor with ha | hb
  · exact h1 ha
  · exact h2 hb

/-- C5 counterexample: with a recorded death at time 0 and
PLAYER_RESPAWN_DELAY = 2, a spawn check run exactly at now = 2 satisfies
now - t0 greater-or-equal RESPAWN_DELAY, yet the system spawns nothing,
because the source condition is the strict now > last_shot + DELAY. -/
theorem c5_exact_delay_no_spawn :
    (2 : ℚ) - 0 ≥ PLAYER_RESPAWN_DELAY ∧
    (player_spawn_system { alive := false, last_shot := 0 } 2 sampleWin).1 = none := by
  refine ⟨by norm_num [PLAYER_RESPAWN_DELAY], ?_⟩
  rw [player_spawn_none _ _ _ (by norm_num) (by norm_num [PLAYER_RESPAWN_DELAY])]

/-- C5 as amended: with the player dead and a recorded death time t0, a
check at now spawns nothing when now - t0 is at most RESPAWN_DELAY, and
spawns exactly one player at (0, -h/2 + PLAYER_SIZE.y/2*SPRITE_SCALE + 5, 10)
with zero velocity and a 2 s Invincible timer, marking the player alive,
when now - t0 is strictly greater than RESPAWN_DELAY. -/
theorem c5_respawn_strict (ps : PlayerState) (now : ℚ) (win : WinSize)
    (hdead : ps.alive = false) (hrec : ps.last_shot ≠ -1) :
    (now ≤ ps.last_shot + PLAYER_RESPAWN_DELAY →
      player_spawn_system ps now win = (none, ps)) ∧
    (now > ps.last_shot + PLAYER_RESPAWN_DELAY →
      player_spawn_system ps now win =
        (some { pos := (0, -win.h / 2 + PLAYER_SIZE.2 / 2 * SPRITE_SCALE + 5, 10),
                velocity := (0, 0), auto_despawn := false, invincible_secs := 2 },
         { alive := true, last_shot := -1 })) := by
  constructor
  · intro h
    exact player_spawn_none ps now win hrec (not_lt.mpr h)
  · intro h
    have hcond : ¬ ps.alive = true ∧
        (ps.last_shot = -1 ∨ now > ps.last_shot + PLAYER_RESPAWN_DELAY) :=
      ⟨by simp [hdead], Or.inr h⟩
    unfold player_spawn_system
    rw [if_pos hcond]
    rfl

/-- C5 witness: a dead player with death time 0 is not respawned at
now = 1 and is respawned with the specified bundle at now = 3. -/
theorem c5_respawn_strict_witness :
    player_spawn_system { alive := false, last_shot := 0 } 1 sampleWin =
      (none, { alive := false, last_shot := 0 }) ∧
    player_spawn_system { alive := false, last_shot := 0 } 3 sampleWin =
      (some { pos := (0, -sampleWin.h / 2 + PLAYER_SIZE.2 / 2 * SPRITE_SCALE + 5, 10),
              velocity := (0, 0), auto_despawn := false, invincible_secs := 2 },
       { alive := true, last_shot := -1 }) := by
  constructor
  · exact (c5_respawn_strict { alive := false, last_shot := 0 } 1 sampleWin rfl
      (by decide)).1 (by norm_num [PLAYER_RESPAWN_DELAY])
  · exact (c5_respawn_strict { alive := false, last_shot := 0 } 3 sampleWin rfl
      (by decide)).2 (by norm_num [PLAYER_RESPAWN_DELAY])

/-- C2 (claim fails on the code): the player query of
enemy_laser_hit_player_system does not filter on the Invincible marker, so
a player currently carrying it and overlapping an enemy laser is
nevertheless destroyed, its death time is recorded, the laser is
despawned and an explosion is spawned. -/
theorem c2_invincible_player_still_hit :
    sampleInvinciblePlayer.invincible = true ∧
    enemy_laser_hit_player_system (some sampleInvinciblePlayer) [sampleEnemyLaser]
        { alive := true, last_shot := -1 } 10 =
      { playerDespawned := true, state := { alive := false, last_shot := 10 },
        laserDespawns := [2], explosions := [(0, 0)] } := by
  have hcol : spritesCollide sampleEnemyLaser sampleInvinciblePlayer.toBox := by
    norm_num [spritesCollide, aabbIntersects, spriteHalf, PlayerSprite.toBox,
      sampleEnemyLaser, sampleInvinciblePlayer]
  refine ⟨rfl, ?_⟩
  show scanEnemyLasers _ _ _ _ = _
  unfold scanEnemyLasers
  rw [if_pos hcol]
  rfl

/-- C9: from the initial state (counter 0, no live enemies), under spawns
that are gated on count < ENEMY_MAX and kills that each remove one live
enemy, every reachable state has its counter equal to the number of live
enemies and at most ENEMY_MAX, and the counter is positive whenever a
kill (decrement) is possible, so the decrement never underflows. -/
theorem c9_enemy_count_invariant (w : EnemyWorld) (h : EnemyReachable w) :
    w.count = w.enemies.card ∧ w.count ≤ ENEMY_MAX ∧
    ∀ e ∈ w.enemies, 0 < w.count := by
  induction h with
  | init => exact ⟨by simp, by simp [ENEMY_MAX], by simp⟩
  | @step w w' hr hs ih =>
    obtain ⟨hcard, hcap, _⟩ := ih
    cases hs with
    | spawn e hcapw hfresh =>
      refine ⟨?_, ?_, ?_⟩
      · show w.count + 1 = (insert e w.enemies).card
        rw [Finset.card_insert_of_not_mem hfresh, hcard]
      · show w.count + 1 ≤ ENEMY_MAX
        omega
      · intro x hx
        show 0 < w.count + 1
        omega
    | kill e hlive =>
      have hpos : 0 < w.enemies.card := Finset.card_pos.mpr ⟨e, hlive⟩
      refine ⟨?_, ?_, ?_⟩
      · show w.count - 1 = (w.enemies.erase e).card
        rw [Finset.card_erase_of_mem hlive]
        omega
      · show w.count - 1 ≤ ENEMY_MAX
        omega
      · intro x hx
        show 0 < w.count - 1
        have hxe : x ≠ e := (Finset.mem_erase.mp hx).1
        have hxm : x ∈ w.enemies := (Finset.mem_erase.mp hx).2
        have h2 : 1 < w.enemies.card := Finset.one_lt_card.mpr ⟨x, hxm, e, hlive, hxe⟩
        omega

/-- C9 witness: the invariant evaluated at the reachable state with one
spawned enemy. -/
theorem c9_enemy_count_invariant_witness :
    ({ count := 1, enemies := insert 5 ∅ } : EnemyWorld).count =
      ({ count := 1, enemies := insert 5 ∅ } : EnemyWorld).enemies.card ∧
    ({ count := 1, enemies := insert 5 ∅ } : EnemyWorld).count ≤ ENEMY_MAX ∧
    ∀ e ∈ ({ count := 1, enemies := insert 5 ∅ } : EnemyWorld).enemies,
      0 < ({ count := 1, enemies := insert 5 ∅ } : EnemyWorld).count := by
  have h0 : EnemyReachable { count := 0, enemies := ∅ } := EnemyReachable.init
  have h1 : EnemyStep { count := 0, enemies := ∅ } { count := 1, enemies := insert 5 ∅ } :=
    EnemyStep.spawn { count := 0, enemies := (∅ : Finset Nat) } 5 (by decide) (by simp)
  exact c9_enemy_count_invariant _ (EnemyReachable.step h0 h1)

/- Preservation of the collision-pass invariant by the inner loop body. -/

theorem processEnemy_inv (laser enemy : SpriteBox) (st : HitPass)
    (hne : laser.entity ≠ enemy.entity) (h : hitInv st) :
    hitInv (processEnemy laser st enemy) := by
  obtain ⟨hndE, hndL, hdisj, hsubE, hsubL, hdec⟩ := h
  unfold processEnemy
  split_ifs with h1 h2
  · exact ⟨hndE, hndL, hdisj, hsubE, hsubL, hdec⟩
  · push_neg at h1
    obtain ⟨henem, hlas⟩ := h1
    refine ⟨?_, ?_, ?_, ?_, ?_, ?_⟩
    · exact List.nodup_cons.mpr ⟨fun hm => henem (hsubE _ hm), hndE⟩
    · exact List.nodup_cons.mpr ⟨fun hm => hlas (hsubL _ hm), hndL⟩
    · intro a haE haL
      rcases List.mem_cons.mp haE with rfl | haE2
      · rcases List.mem_cons.mp haL with heq | haL2
        · exact hne heq.symm
        · exact henem (hsubL _ haL2)
      · rcases List.mem_cons.mp haL with rfl | haL2
        · exact hlas (hsubE _ haE2)
        · exact hdisj haE2 haL2
    · intro i hi
      rcases List.mem_cons.mp hi with rfl | hi2
      · exact List.mem_cons_of_mem _ (List.mem_cons_self _ _)
      · exact List.mem_cons_of_mem _ (List.mem_cons_of_mem _ (hsubE _ hi2))
    · intro i hi
      rcases List.mem_cons.mp hi with rfl | hi2
      · exact List.mem_cons_self _ _
      · exact List.mem_cons_of_mem _ (List.mem_cons_of_mem _ (hsubL _ hi2))
    · simp [hdec]
  · exact ⟨hndE, hndL, hdisj, hsubE, hsubL, hdec⟩

/- Preservation of the collision-pass invariant by the inner loop. -/

theorem foldl_processEnemy_inv (laser : SpriteBox) (enemies : List SpriteBox)
    (st : HitPass) (hne : ∀ e ∈ enemies, laser.entity ≠ e.entity) (h : hitInv st) :
    hitInv (enemies.foldl (processEnemy laser) st) := by
  induction enemies generalizing st with
  | nil => exact h
  | cons e rest ih =>
    exact ih (processEnemy laser st e) (fun x hx => hne x (List.mem_cons_of_mem _ hx))
      (processEnemy_inv laser e st (hne e (List.mem_cons_self _ _)) h)

/- Preservation of the collision-pass invariant by the outer loop body. -/

theorem processLaser_inv (enemies : List SpriteBox) (laser : SpriteBox) (st : HitPass)
    (hne : ∀ e ∈ enemies, laser.entity ≠ e.entity) (h : hitInv st) :
    hitInv (processLaser enemies st laser) := by
  unfold processLaser
  split_ifs with h1
  · exact h
  · exact foldl_processEnemy_inv laser enemies st hne h

/-- C6: the player-laser-vs-enemy collision pass is idempotent within a
frame: provided laser and enemy entity ids are pairwise distinct, the
issued despawn commands are duplicate-free (each entity destroyed at most
once per frame, even when its bounding box overlaps several
counterparts), and the enemy counter is decremented exactly once per
despawned enemy. -/
theorem c6_at_most_once_destruction (lasers enemies : List SpriteBox)
    (hdisj : ∀ l ∈ lasers, ∀ e ∈ enemies, l.entity ≠ e.entity) :
    ((player_laser_hit_enemy_system lasers enemies).enemyDespawns ++
      (player_laser_hit_enemy_system lasers enemies).laserDespawns).Nodup ∧
    (player_laser_hit_enemy_system lasers enemies).decrements =
      (player_laser_hit_enemy_system lasers enemies).enemyDespawns.length := by
  have key : hitInv (player_laser_hit_enemy_system lasers enemies) := by
    unfold player_laser_hit_enemy_system
    have main : ∀ (ls : List SpriteBox) (st : HitPass),
        (∀ l ∈ ls, ∀ e ∈ enemies, l.entity ≠ e.entity) → hitInv st →
        hitInv (ls.foldl (processLaser enemies) st) := by
      intro ls
      induction ls with
      | nil => intro st _ h; exact h
      | cons l rest ih =>
        intro st hl h
        exact ih (processLaser enemies st l)
          (fun x hx e he => hl x (List.mem_cons_of_mem _ hx) e he)
          (processLaser_inv enemies l st (fun e he => hl l (List.mem_cons_self _ _) e he) h)
    refine main lasers _ hdisj ?_
    refine ⟨List.nodup_nil, List.nodup_nil, ?_, ?_, ?_, rfl⟩
    · intro a h1 h2
      exact absurd h1 (List.not_mem_nil a)
    · intro i hi
      exact absurd hi (List.not_mem_nil i)
    · intro i hi
      exact absurd hi (List.not_mem_nil i)
  obtain ⟨hndE, hndL, hdisj2, _, _, hdec⟩ := key
  exact ⟨List.Nodup.append hndE hndL hdisj2, hdec⟩

/-- C6 witness: the pass run on one laser overlapping two stacked enemies
with pairwise distinct entity ids. -/
theorem c6_at_most_once_destruction_witness :
    ((player_laser_hit_enemy_system [sampleLaserBox] [sampleEnemyBoxA, sampleEnemyBoxB]).enemyDespawns ++
      (player_laser_hit_enemy_system [sampleLaserBox] [sampleEnemyBoxA, sampleEnemyBoxB]).laserDespawns).Nodup ∧
    (player_laser_hit_enemy_system [sampleLaserBox] [sampleEnemyBoxA, sampleEnemyBoxB]).decrements =
      (player_laser_hit_enemy_system [sampleLaserBox] [sampleEnemyBoxA, sampleEnemyBoxB]).enemyDespawns.length := by
  refine c6_at_most_once_destruction _ _ ?_
  intro l hl e he
  rcases List.mem_singleton.mp hl with rfl
  rcases List.mem_cons.mp he with rfl | he2
  · norm_num [sampleLaserBox, sampleEnemyBoxA]
  · rcases List.mem_singleton.mp he2 with rfl
    norm_num [sampleLaserBox, sampleEnemyBoxB]

/-- C4: while a live template exists and the issued-member count is below
FORMATION_MEMBERS_MAX, make returns the template by value and increments
the count; once the count has reached the cap (or when no template
exists), make returns the freshly drawn formation, stores it as the new
template and resets the count to 1. -/
theorem c4_formation_maker_batching (m : FormationMaker) (win : WinSize)
    (roll : MakerRolls) :
    (∀ tmpl, m.current_template = some tmpl →
      m.current_members < FORMATION_MEMBERS_MAX →
      m.make win roll = (tmpl, { m with current_members := m.current_members + 1 })) ∧
    (m.current_members ≥ FORMATION_MEMBERS_MAX →
      m.make win roll = (freshFormation win roll,
        { current_template := some (freshFormation win roll), current_members := 1 })) := by
  constructor
  · intro tmpl htmpl hlt
    unfold FormationMaker.make
    rw [htmpl]
    dsimp only
    rw [if_neg (Nat.not_le.mpr hlt)]
  · intro hge
    unfold FormationMaker.make
    cases hm : m.current_template with
    | none => rfl
    | some tmpl =>
      dsimp only
      rw [if_pos hge]

/-- C4 witness: a maker holding a template with one issued member clones
it and bumps the count to 2; a maker at the cap of 2 returns the fresh
formation and resets the count to 1. -/
theorem c4_formation_maker_batching_witness :
    sampleMakerFresh.make sampleWin sampleMakerRolls =
      (sampleFormation, { sampleMakerFresh with current_members := 2 }) ∧
    sampleMakerFull.make sampleWin sampleMakerRolls =
      (freshFormation sampleWin sampleMakerRolls,
       { current_template := some (freshFormation sampleWin sampleMakerRolls),
         current_members := 1 }) := by
  constructor
  · exact (c4_formation_maker_batching sampleMakerFresh sampleWin sampleMakerRolls).1
      sampleFormation rfl (by norm_num [sampleMakerFresh, FORMATION_MEMBERS_MAX])
  · exact (c4_formation_maker_batching sampleMakerFull sampleWin sampleMakerRolls).2
      (by norm_num [sampleMakerFull, FORMATION_MEMBERS_MAX])

/- Bounds of the Rust clamp on reals. -/

theorem rclamp_mem (x lo hi : ℝ) (h : lo ≤ hi) :
    lo ≤ rclamp x lo hi ∧ rclamp x lo hi ≤ hi :=
  ⟨le_max_left _ _, max_le h (min_le_right _ _)⟩

/- The position-tracking sub-step never touches radius or speed. -/

theorem trackStep_radius_speed (f : Formation) (pos : ℝ × ℝ) (delta : ℝ) :
    (trackStep f pos delta).2.radius = f.radius ∧
    (trackStep f pos delta).2.speed = f.speed := by
  have h : (trackStep f pos delta).2 =
      if targetDistance f pos delta < delta * f.speed * f.speed / 20 then
        { f with angle := candidateAngle f delta } else f := rfl
  rw [h]
  split_ifs <;> exact ⟨rfl, rfl⟩

/- Bounds established by the drift sub-step alone. -/

theorem driftFormation_bounds (win : WinSize) (f : Formation) (roll : DriftRolls)
    (delta : ℝ) :
    (50 ≤ (driftFormation win f roll delta).radius.1 ∧
      (driftFormation win f roll delta).radius.1 ≤ 200) ∧
    (50 ≤ (driftFormation win f roll delta).radius.2 ∧
      (driftFormation win f roll delta).radius.2 ≤ 150) ∧
    (BASE_SPEED_R * 0.5 ≤ (driftFormation win f roll delta).speed ∧
      (driftFormation win f roll delta).speed ≤ BASE_SPEED_R * 1.5) := by
  refine ⟨?_, ?_, ?_⟩
  · exact rclamp_mem _ 50 200 (by norm_num)
  · exact rclamp_mem _ 50 150 (by norm_num)
  · exact rclamp_mem _ _ _ (by norm_num [BASE_SPEED_R])

/-- C1: after every tick of the enemy movement system, for any frame
delta and any outcome of the random delta re-rolls, the Formation
satisfies radius.x between 50 and 200, radius.y between 50 and 150 and
speed between 0.5 and 1.5 times BASE_SPEED: the clamping at the end of
the parameter-drift sub-step establishes the bounds on every update, and
the tracking sub-step preserves radius and speed, so the bounds hold
after any number of ticks. -/
theorem c1_formation_invariants (win : WinSize) (s : EnemyState) (roll : DriftRolls)
    (delta : ℝ) :
    (50 ≤ (enemy_movement_system win s roll delta).formation.radius.1 ∧
      (enemy_movement_system win s roll delta).formation.radius.1 ≤ 200) ∧
    (50 ≤ (enemy_movement_system win s roll delta).formation.radius.2 ∧
      (enemy_movement_system win s roll delta).formation.radius.2 ≤ 150) ∧
    (BASE_SPEED_R * 0.5 ≤ (enemy_movement_system win s roll delta).formation.speed ∧
      (enemy_movement_system win s roll delta).formation.speed ≤ BASE_SPEED_R * 1.5) := by
  have htr := trackStep_radius_speed (driftFormation win s.formation roll delta) s.pos delta
  have hrad : (enemy_movement_system win s roll delta).formation.radius =
      (driftFormation win s.formation roll delta).radius := htr.1
  have hsp : (enemy_movement_system win s roll delta).formation.speed =
      (driftFormation win s.formation roll delta).speed := htr.2
  rw [hrad, hsp]
  exact driftFormation_bounds win s.formation roll delta

/- A degenerate axis step from a coordinate to itself moves nowhere. -/

theorem axisMove_self (o r : ℝ) : axisMove o o r = o := by
  unfold axisMove
  rw [if_neg (by simp)]
  simp

/-- C3: if the current position exactly equals the computed target point
on the ellipse, one integration step of the enemy movement system takes
the step ratio as zero (the division guard) and produces zero
displacement: the position is returned unchanged, with no division by the
zero distance. -/
theorem c3_zero_distance_zero_step (f : Formation) (pos : ℝ × ℝ) (delta : ℝ)
    (h : pos = targetPoint f delta) :
    stepRatioOf f pos delta = 0 ∧ (trackStep f pos delta).1 = pos := by
  have hdist : targetDistance f pos delta = 0 := by
    unfold targetDistance
    rw [h]
    simp
  constructor
  · unfold stepRatioOf
    rw [if_pos hdist]
  · have h1 : (targetPoint f delta).1 = pos.1 := by rw [h]
    have h2 : (targetPoint f delta).2 = pos.2 := by rw [h]
    show (axisMove pos.1 (targetPoint f delta).1 (stepRatioOf f pos delta),
          axisMove pos.2 (targetPoint f delta).2 (stepRatioOf f pos delta)) = pos
    rw [h1, h2, axisMove_self, axisMove_self]

/-- C3 witness: a concrete formation and position sitting exactly on the
target point, for which the step ratio is zero and the step is the
identity. -/
theorem c3_zero_distance_zero_step_witness :
    ((100 : ℝ), (0 : ℝ)) = targetPoint sampleFormation 0 ∧
    stepRatioOf sampleFormation ((100 : ℝ), (0 : ℝ)) 0 = 0 ∧
    (trackStep sampleFormation ((100 : ℝ), (0 : ℝ)) 0).1 = ((100 : ℝ), (0 : ℝ)) := by
  have hang : candidateAngle sampleFormation 0 = 0 := by
    unfold candidateAngle
    norm_num [sampleFormation]
  have h : ((100 : ℝ), (0 : ℝ)) = targetPoint sampleFormation 0 := by
    unfold targetPoint
    rw [hang]
    norm_num [sampleFormation]
  exact ⟨h, (c3_zero_distance_zero_step sampleFormation _ 0 h).1,
    (c3_zero_distance_zero_step sampleFormation _ 0 h).2⟩

/- Nonnegativity of the computed distance. -/

theorem targetDistance_nonneg (f : Formation) (pos : ℝ × ℝ) (delta : ℝ) :
    0 ≤ targetDistance f pos delta :=
  Real.sqrt_nonneg _

/- Nonnegativity of the guarded distance-ratio for a forward frame. -/

theorem stepRatioOf_nonneg (f : Formation) (pos : ℝ × ℝ) (delta : ℝ)
    (hd : 0 ≤ delta) (hs : 0 ≤ f.speed) : 0 ≤ stepRatioOf f pos delta := by
  unfold stepRatioOf
  split_ifs with h
  · exact le_refl 0
  · exact div_nonneg (mul_nonneg hd hs) (targetDistance_nonneg f pos delta)

/- One clamped axis step stays between the origin and the target, and its
displacement is bounded by the unclamped displacement. -/

theorem axisMove_between (o t r : ℝ) (hr : 0 ≤ r) :
    (min o t ≤ axisMove o t r ∧ axisMove o t r ≤ max o t) ∧
    (axisMove o t r - o) * (axisMove o t r - o) ≤ ((o - t) * r) * ((o - t) * r) := by
  unfold axisMove
  split_ifs with h
  · have ht : t < o := by linarith
    have hdr : 0 ≤ (o - t) * r := mul_nonneg (by linarith) hr
    have h1 : max (o - (o - t) * r) t ≤ o := max_le (by linarith) ht.le
    have h3 : o - (o - t) * r ≤ max (o - (o - t) * r) t := le_max_left _ _
    refine ⟨⟨?_, ?_⟩, ?_⟩
    · rw [min_eq_right ht.le]
      exact le_max_right _ _
    · rw [max_eq_left ht.le]
      exact h1
    · nlinarith [h1, h3, hdr]
  · have ht : o ≤ t := by linarith [not_lt.mp h]
    have hdr : (o - t) * r ≤ 0 := mul_nonpos_of_nonpos_of_nonneg (by linarith) hr
    have h1 : o ≤ min (o - (o - t) * r) t := le_min (by linarith) ht
    have h3 : min (o - (o - t) * r) t ≤ o - (o - t) * r := min_le_left _ _
    refine ⟨⟨?_, ?_⟩, ?_⟩
    · rw [min_eq_left ht]
      exact h1
    · rw [max_eq_right ht]
      exact min_le_right _ _
    · nlinarith [h1, h3, hdr]

/- The squared displacement of one tracking step is bounded by the square
of max_distance = delta * speed. -/

theorem trackStep_displacement_sq (f : Formation) (pos : ℝ × ℝ) (delta : ℝ)
    (hd : 0 ≤ delta) (hs : 0 ≤ f.speed) :
    ((trackStep f pos delta).1.1 - pos.1) * ((trackStep f pos delta).1.1 - pos.1) +
      ((trackStep f pos delta).1.2 - pos.2) * ((trackStep f pos delta).1.2 - pos.2) ≤
    (delta * f.speed) * (delta * f.speed) := by
  have hr0 : 0 ≤ stepRatioOf f pos delta := stepRatioOf_nonneg f pos delta hd hs
  have hX := (axisMove_between pos.1 (targetPoint f delta).1 (stepRatioOf f pos delta) hr0).2
  have hY := (axisMove_between pos.2 (targetPoint f delta).2 (stepRatioOf f pos delta) hr0).2
  have hs1 : (trackStep f pos delta).1.1 =
      axisMove pos.1 (targetPoint f delta).1 (stepRatioOf f pos delta) := rfl
  have hs2 : (trackStep f pos delta).1.2 =
      axisMove pos.2 (targetPoint f delta).2 (stepRatioOf f pos delta) := rfl
  rw [hs1, hs2]
  refine le_trans (add_le_add hX hY) ?_
  have hnn2 : 0 ≤ (pos.1 - (targetPoint f delta).1) * (pos.1 - (targetPoint f delta).1) +
      (pos.2 - (targetPoint f delta).2) * (pos.2 - (targetPoint f delta).2) :=
    add_nonneg (mul_self_nonneg _) (mul_self_nonneg _)
  have hrw : ((pos.1 - (targetPoint f delta).1) * stepRatioOf f pos delta) *
        ((pos.1 - (targetPoint f delta).1) * stepRatioOf f pos delta) +
      ((pos.2 - (targetPoint f delta).2) * stepRatioOf f pos delta) *
        ((pos.2 - (targetPoint f delta).2) * stepRatioOf f pos delta) =
      (stepRatioOf f pos delta * stepRatioOf f pos delta) *
        ((pos.1 - (targetPoint f delta).1) * (pos.1 - (targetPoint f delta).1) +
         (pos.2 - (targetPoint f delta).2) * (pos.2 - (targetPoint f delta).2)) := by
    ring
  rw [hrw]
  by_cases hzero : targetDistance f pos delta = 0
  · have hsumzero : (pos.1 - (targetPoint f delta).1) * (pos.1 - (targetPoint f delta).1) +
        (pos.2 - (targetPoint f delta).2) * (pos.2 - (targetPoint f delta).2) = 0 :=
      (Real.sqrt_eq_zero hnn2).mp hzero
    rw [hsumzero, mul_zero]
    exact mul_self_nonneg _
  · have hrval : stepRatioOf f pos delta =
        delta * f.speed / targetDistance f pos delta := by
      unfold stepRatioOf
      rw [if_neg hzero]
    have hsq : targetDistance f pos delta * targetDistance f pos delta =
        (pos.1 - (targetPoint f delta).1) * (pos.1 - (targetPoint f delta).1) +
        (pos.2 - (targetPoint f delta).2) * (pos.2 - (targetPoint f delta).2) :=
      Real.mul_self_sqrt hnn2
    rw [hrval, ← hsq]
    have heq : delta * f.speed / targetDistance f pos delta *
          (delta * f.speed / targetDistance f pos delta) *
          (targetDistance f pos delta * targetDistance f pos delta) =
        (delta * f.speed) * (delta * f.speed) := by
      field_simp
    rw [heq]

/-- C8: in one position-tracking step of the enemy movement system with
nonnegative frame delta and speed, the enemy moves from its current
position toward the target point on the ellipse by a total displacement
of at most speed * delta; on each axis the new coordinate stays between
the old coordinate and the target coordinate (never past the target); and
the locked Formation angle is advanced to the candidate angle only when
the distance to the target is below the threshold
(delta * speed) * speed / 20 of the source. -/
theorem c8_tracking_step_bounds (f : Formation) (pos : ℝ × ℝ) (delta : ℝ)
    (hd : 0 ≤ delta) (hs : 0 ≤ f.speed) :
    Real.sqrt (((trackStep f pos delta).1.1 - pos.1) * ((trackStep f pos delta).1.1 - pos.1) +
        ((trackStep f pos delta).1.2 - pos.2) * ((trackStep f pos delta).1.2 - pos.2)) ≤
      f.speed * delta ∧
    (min pos.1 (targetPoint f delta).1 ≤ (trackStep f pos delta).1.1 ∧
      (trackStep f pos delta).1.1 ≤ max pos.1 (targetPoint f delta).1) ∧
    (min pos.2 (targetPoint f delta).2 ≤ (trackStep f pos delta).1.2 ∧
      (trackStep f pos delta).1.2 ≤ max pos.2 (targetPoint f delta).2) ∧
    ((trackStep f pos delta).2.angle ≠ f.angle →
      targetDistance f pos delta < delta * f.speed * f.speed / 20) := by
  have hr0 : 0 ≤ stepRatioOf f pos delta := stepRatioOf_nonneg f pos delta hd hs
  have hX := (axisMove_between pos.1 (targetPoint f delta).1 (stepRatioOf f pos delta) hr0).1
  have hY := (axisMove_between pos.2 (targetPoint f delta).2 (stepRatioOf f pos delta) hr0).1
  refine ⟨?_, ⟨hX.1, hX.2⟩, ⟨hY.1, hY.2⟩, ?_⟩
  · have hsq := trackStep_displacement_sq f pos delta hd hs
    have hmd : 0 ≤ delta * f.speed := mul_nonneg hd hs
    have h1 := Real.sqrt_le_sqrt hsq
    rw [Real.sqrt_mul_self hmd] at h1
    rw [mul_comm f.speed delta]
    exact h1
  · intro hang
    by_contra hge
    apply hang
    have h2 : (trackStep f pos delta).2 =
        if targetDistance f pos delta < delta * f.speed * f.speed / 20 then
          { f with angle := candidateAngle f delta } else f := rfl
    rw [h2, if_neg hge]

/-- C8 witness: the axis bounds of the tracking step instantiated at the
sample formation, the origin and frame delta 1. -/
theorem c8_tracking_step_bounds_witness :
    (0 : ℝ) ≤ 1 ∧ (0 : ℝ) ≤ sampleFormation.speed ∧
    (min ((0 : ℝ), (0 : ℝ)).1 (targetPoint sampleFormation 1).1 ≤
        (trackStep sampleFormation ((0 : ℝ), (0 : ℝ)) 1).1.1 ∧
      (trackStep sampleFormation ((0 : ℝ), (0 : ℝ)) 1).1.1 ≤
        max ((0 : ℝ), (0 : ℝ)).1 (targetPoint sampleFormation 1).1) := by
  refine ⟨by norm_num, by norm_num [sampleFormation], ?_⟩
  exact (c8_tracking_step_bounds sampleFormation ((0 : ℝ), (0 : ℝ)) 1 (by norm_num)
    (by norm_num [sampleFormation])).2.1
